import Mathlib

/-!
Shallow embedding of the xrl client (src/client.rs): a client-side RPC
facade translating editor commands into request/notification envelopes
handed to an asynchronous transport.  Each client operation is embedded
as a pure description of its effect: the outbound message it hands to
the transport (if any), together with the function resolving the
transport's outcome to the caller-visible result.
-/

/-- Wire values (the serde_json Value model): null, booleans, numbers,
strings, arrays, and objects as key/value lists (insertion order kept). -/
inductive Json where
  | null : Json
  | bool : Bool → Json
  | num : Nat → Json
  | str : String → Json
  | arr : List Json → Json
  | obj : List (String × Json) → Json

/-- Modelled from the spec: structs.rs is not in src/.  The spec calls the
view identifier an opaque token with no structure beyond equality and
serializability, so it is embedded as a wrapped string token. -/
structure ViewId where
  token : String
deriving DecidableEq, Repr

/-- Modelled from the spec: serialization of a view identifier (structs.rs
is not in src/); an opaque serializable token, embedded as its string. -/
def ViewId.toJson (v : ViewId) : Json := Json.str v.token

/-- Modelled from the spec: deserialization of a view identifier
(structs.rs is not in src/).  Succeeds exactly on the image of
serialization: a string token; anything else is a serde error. -/
def viewIdFromJson : Json → Except String ViewId
  | Json.str s => Except.ok (ViewId.mk s)
  | _ => Except.error "invalid type: expected a view id token"

/-- Modelled from the spec: errors.rs is not in src/.  The error taxonomy
names NotifyFailed, RequestFailed, ErrorReturned(value) and a
serialization-failure kind; the serde conversion failures of client.rs
(the question-mark on to_value, and map_err From.from on from_value) go
to the serde kind, carrying the serde error message. -/
inductive ClientError where
  | notifyFailed : ClientError
  | requestFailed : ClientError
  | errorReturned : Json → ClientError
  | serde : String → ClientError

/-- One outbound message handed to the transport: a method name plus a
parameter value (protocol::Client.notify / request take exactly these). -/
structure Message where
  method : String
  params : Json

/-- Outcome of the transport's fire-and-forget primitive: the send was
handed off, or the transport reported it could not be completed. -/
inductive NotifyOutcome where
  | sent : NotifyOutcome
  | sendFailed : NotifyOutcome
deriving DecidableEq, Repr

/-- The three outcomes of the transport's correlated-request future
(Result of Result in client.rs): remote success payload, remote-reported
application error payload, or transport-level failure. -/
inductive TransportResponse where
  | success : Json → TransportResponse
  | remoteError : Json → TransportResponse
  | failure : TransportResponse

/-- A notification call: the message handed to the transport and the
resolution of the transport's outcome into the caller's result. -/
structure NotifyCall where
  message : Message
  resolve : NotifyOutcome → Except ClientError Unit

/-- A request call: the message handed to the transport and the
resolution of the transport's response into the caller's result. -/
structure RequestCall where
  message : Message
  resolve : TransportResponse → Except ClientError Json

/-- Client.notify: delegates to the transport's notify and maps any
transport error to NotifyFailed (map_err in client.rs). -/
def Client.notify (method : String) (params : Json) : NotifyCall :=
  { message := { method := method, params := params }
    resolve := fun o =>
      match o with
      | NotifyOutcome.sent => Except.ok ()
      | NotifyOutcome.sendFailed => Except.error ClientError.notifyFailed }

/-- Client.request: delegates to the transport's request and maps its
three outcomes to Ok(value), Err(ErrorReturned(value)), Err(RequestFailed)
(the match on the double Result in client.rs). -/
def Client.request (method : String) (params : Json) : RequestCall :=
  { message := { method := method, params := params }
    resolve := fun r =>
      match r with
      | TransportResponse.success v => Except.ok v
      | TransportResponse.remoteError v =>
          Except.error (ClientError.errorReturned v)
      | TransportResponse.failure => Except.error ClientError.requestFailed }

/-- A typed, serializable parameter is embedded by its serialization
outcome: the wire value it serializes to, or the serde error to_value
reports (the Serialize bound defers exactly this conversion). -/
def SerParam : Type := Except String Json

/-- get_edit_params: serializes the optional params (substituting the
empty sequence when absent) and builds the inner edit envelope with keys
method, view_id, params in that order (client.rs lines 16-32). -/
def get_edit_params (view_id : ViewId) (method : String)
    (params : Option SerParam) : Except ClientError Json :=
  match params with
  | some (Except.error e) => Except.error (ClientError.serde e)
  | some (Except.ok v) =>
      Except.ok (Json.obj
        [("method", Json.str method), ("view_id", ViewId.toJson view_id),
         ("params", v)])
  | none =>
      Except.ok (Json.obj
        [("method", Json.str method), ("view_id", ViewId.toJson view_id),
         ("params", Json.arr [])])

/-- Result of an edit-scoped request: either the transport is invoked
with one request call, or an already-failed future is returned and the
transport is never touched. -/
inductive EditRequestResult where
  | invoke : RequestCall → EditRequestResult
  | failed : ClientError → EditRequestResult

/-- Result of an edit-scoped notification: either the transport is
invoked with one notify call, or an already-failed future is returned
and the transport is never touched. -/
inductive EditNotifyResult where
  | invoke : NotifyCall → EditNotifyResult
  | failed : ClientError → EditNotifyResult

/-- Client.edit_request: on successful composition issues
request("edit", envelope); on composition failure returns the failed
future without calling the transport (client.rs lines 62-71). -/
def Client.edit_request (view_id : ViewId) (method : String)
    (params : Option SerParam) : EditRequestResult :=
  match get_edit_params view_id method params with
  | Except.ok value => EditRequestResult.invoke (Client.request "edit" value)
  | Except.error e => EditRequestResult.failed e

/-- Client.edit_notify: on successful composition issues
notify("edit", envelope); on composition failure returns the failed
future without calling the transport (client.rs lines 76-86). -/
def Client.edit_notify (view_id : ViewId) (method : String)
    (params : Option SerParam) : EditNotifyResult :=
  match get_edit_params view_id method params with
  | Except.ok value => EditNotifyResult.invoke (Client.notify "edit" value)
  | Except.error e => EditNotifyResult.failed e

/-- Client.scroll: edit notification with inner method scroll and params
the two-element sequence of first and last line (a json! literal, whose
serialization always succeeds). -/
def Client.scroll (view_id : ViewId) (first_line last_line : Nat) :
    EditNotifyResult :=
  Client.edit_notify view_id "scroll"
    (some (Except.ok (Json.arr [Json.num first_line, Json.num last_line])))

/-- Client.click: edit notification with inner method click and params
the four-element sequence line, column, 0, 1 (modifier and click count
are fixed literals; a json! literal, serialization always succeeds). -/
def Client.click (view_id : ViewId) (line column : Nat) :
    EditNotifyResult :=
  Client.edit_notify view_id "click"
    (some (Except.ok
      (Json.arr [Json.num line, Json.num column, Json.num 0, Json.num 1])))

/-- The gesture params object shared by the click_*_select functions:
a json! literal with keys line, col, ty. -/
def gestureParams (line column : Nat) (ty : String) : Json :=
  Json.obj [("line", Json.num line), ("col", Json.num column),
            ("ty", Json.str ty)]

/-- Client.click_range_select: a gesture edit notification with ty
range_select. -/
def Client.click_range_select (view_id : ViewId) (line column : Nat) :
    EditNotifyResult :=
  Client.edit_notify view_id "gesture"
    (some (Except.ok (gestureParams line column "range_select")))

/-- Client.click_line_select: a gesture edit notification; its ty local
is set to range_select in the source. -/
def Client.click_line_select (view_id : ViewId) (line column : Nat) :
    EditNotifyResult :=
  Client.edit_notify view_id "gesture"
    (some (Except.ok (gestureParams line column "range_select")))

/-- Client.click_word_select: a gesture edit notification with ty
word_select. -/
def Client.click_word_select (view_id : ViewId) (line column : Nat) :
    EditNotifyResult :=
  Client.edit_notify view_id "gesture"
    (some (Except.ok (gestureParams line column "word_select")))

/-- Client.left: edit notification move_left, no params. -/
def Client.left (view_id : ViewId) : EditNotifyResult :=
  Client.edit_notify view_id "move_left" none

/-- Client.left_sel: edit notification move_left_and_modify_selection. -/
def Client.left_sel (view_id : ViewId) : EditNotifyResult :=
  Client.edit_notify view_id "move_left_and_modify_selection" none

/-- Client.right: edit notification move_right, no params. -/
def Client.right (view_id : ViewId) : EditNotifyResult :=
  Client.edit_notify view_id "move_right" none

/-- Client.right_sel: edit notification move_right_and_modify_selection. -/
def Client.right_sel (view_id : ViewId) : EditNotifyResult :=
  Client.edit_notify view_id "move_right_and_modify_selection" none

/-- Client.up: edit notification move_up, no params. -/
def Client.up (view_id : ViewId) : EditNotifyResult :=
  Client.edit_notify view_id "move_up" none

/-- Client.up_sel: edit notification move_up_and_modify_selection. -/
def Client.up_sel (view_id : ViewId) : EditNotifyResult :=
  Client.edit_notify view_id "move_up_and_modify_selection" none

/-- Client.down: edit notification move_down, no params. -/
def Client.down (view_id : ViewId) : EditNotifyResult :=
  Client.edit_notify view_id "move_down" none

/-- Client.down_sel: edit notification move_down_and_modify_selection. -/
def Client.down_sel (view_id : ViewId) : EditNotifyResult :=
  Client.edit_notify view_id "move_down_and_modify_selection" none

/-- Client.page_up: edit notification scroll_page_up, no params. -/
def Client.page_up (view_id : ViewId) : EditNotifyResult :=
  Client.edit_notify view_id "scroll_page_up" none

/-- Client.page_up_sel: edit notification page_up_and_modify_selection. -/
def Client.page_up_sel (view_id : ViewId) : EditNotifyResult :=
  Client.edit_notify view_id "page_up_and_modify_selection" none

/-- Client.page_down: edit notification scroll_page_down, no params. -/
def Client.page_down (view_id : ViewId) : EditNotifyResult :=
  Client.edit_notify view_id "scroll_page_down" none

/-- Client.page_down_sel: edit notification
page_down_and_modify_selection. -/
def Client.page_down_sel (view_id : ViewId) : EditNotifyResult :=
  Client.edit_notify view_id "page_down_and_modify_selection" none

/-- Client.line_start: edit notification move_to_left_end_of_line. -/
def Client.line_start (view_id : ViewId) : EditNotifyResult :=
  Client.edit_notify view_id "move_to_left_end_of_line" none

/-- Client.line_start_sel: edit notification
move_to_left_end_of_line_and_modify_selection. -/
def Client.line_start_sel (view_id : ViewId) : EditNotifyResult :=
  Client.edit_notify view_id
    "move_to_left_end_of_line_and_modify_selection" none

/-- Client.line_end: edit notification move_to_right_end_of_line. -/
def Client.line_end (view_id : ViewId) : EditNotifyResult :=
  Client.edit_notify view_id "move_to_right_end_of_line" none

/-- Client.line_end_sel: edit notification
move_to_right_end_of_line_and_modify_selection. -/
def Client.line_end_sel (view_id : ViewId) : EditNotifyResult :=
  Client.edit_notify view_id
    "move_to_right_end_of_line_and_modify_selection" none

/-- A new_view call: the request message handed to the transport, and
the resolution of the transport's response into a view identifier. -/
structure NewViewCall where
  message : Message
  resolve : TransportResponse → Except ClientError ViewId

/-- Client.new_view: builds params (an object with file_path when given,
the empty object otherwise), issues request with method new_view, and
chains deserialization of the success payload into a view identifier,
converting a parse failure into a client error (and_then with from_value
and map_err From.from in client.rs lines 443-452). -/
def Client.new_view (file_path : Option String) : NewViewCall :=
  let params :=
    match file_path with
    | some fp => Json.obj [("file_path", Json.str fp)]
    | none => Json.obj []
  let rc := Client.request "new_view" params
  { message := rc.message
    resolve := fun resp =>
      match rc.resolve resp with
      | Except.ok value =>
          match viewIdFromJson value with
          | Except.ok view_id => Except.ok view_id
          | Except.error e => Except.error (ClientError.serde e)
      | Except.error e => Except.error e }

/-- The inner method name an edit-scoped notification carries: the value
of the method key of the inner envelope of the message handed to the
transport, when the transport is invoked at all. -/
def EditNotifyResult.innerMethod : EditNotifyResult → Option String
  | EditNotifyResult.invoke call =>
      match call.message.params with
      | Json.obj kvs =>
          match List.lookup "method" kvs with
          | some (Json.str m) => some m
          | _ => none
      | _ => none
  | EditNotifyResult.failed _ => none

/-- Claim C1: request maps the transport's three outcomes to Ok(value),
Err(ErrorReturned(value)) and Err(RequestFailed) respectively; a remote
application error never surfaces as RequestFailed, and a transport
failure never surfaces as ErrorReturned. -/
theorem C1_request_three_way_mapping (method : String) (params : Json) :
    (∀ v, (Client.request method params).resolve (TransportResponse.success v)
        = Except.ok v) ∧
    (∀ e, (Client.request method params).resolve
            (TransportResponse.remoteError e)
          = Except.error (ClientError.errorReturned e) ∧
        (Client.request method params).resolve (TransportResponse.remoteError e)
          ≠ Except.error ClientError.requestFailed) ∧
    ((Client.request method params).resolve TransportResponse.failure
        = Except.error ClientError.requestFailed ∧
      ∀ e, (Client.request method params).resolve TransportResponse.failure
        ≠ Except.error (ClientError.errorReturned e)) := by
  refine ⟨fun v => rfl, fun e => ⟨rfl, by simp [Client.request]⟩,
    rfl, fun e => by simp [Client.request]⟩

/-- Claim C2: when the typed params fail to serialize, edit_request and
edit_notify both return the already-failed future carrying the
serialization error, and the transport is not invoked (the result is the
failed alternative, not an invoke). -/
theorem C2_edit_serialization_failure_no_transport (view_id : ViewId)
    (method : String) (e : String) :
    Client.edit_request view_id method (some (Except.error e))
      = EditRequestResult.failed (ClientError.serde e) ∧
    Client.edit_notify view_id method (some (Except.error e))
      = EditNotifyResult.failed (ClientError.serde e) :=
  ⟨rfl, rfl⟩

/-- Claim C3: on successful serialization, get_edit_params returns
exactly the object with keys method, view_id and params, the params key
bound to the serialized input when present and to the empty sequence
when absent; never null and never omitted. -/
theorem C3_get_edit_params_shape (view_id : ViewId) (method : String)
    (p : Json) :
    get_edit_params view_id method (some (Except.ok p))
      = Except.ok (Json.obj
          [("method", Json.str method), ("view_id", ViewId.toJson view_id),
           ("params", p)]) ∧
    get_edit_params view_id method none
      = Except.ok (Json.obj
          [("method", Json.str method), ("view_id", ViewId.toJson view_id),
           ("params", Json.arr [])]) :=
  ⟨rfl, rfl⟩

/-- Claim C4: notify hands exactly the given method and params to the
transport, succeeds with unit once the hand-off succeeds, and fails with
NotifyFailed exactly when the transport reports the send could not be
completed. -/
theorem C4_notify_failure_iff (method : String) (params : Json) :
    (Client.notify method params).message
      = { method := method, params := params } ∧
    (Client.notify method params).resolve NotifyOutcome.sent
      = Except.ok () ∧
    ∀ o, (Client.notify method params).resolve o
        = Except.error ClientError.notifyFailed ↔ o = NotifyOutcome.sendFailed := by
  refine ⟨rfl, rfl, fun o => ?_⟩
  cases o <;> simp [Client.notify]

/-- Claim C5: new_view with no path issues the request with method
new_view and params the empty object; new_view with path foo.txt issues
it with params an object binding file_path to foo.txt. -/
theorem C5_new_view_envelopes :
    (Client.new_view none).message
      = { method := "new_view", params := Json.obj [] } ∧
    (Client.new_view (some "foo.txt")).message
      = { method := "new_view",
          params := Json.obj [("file_path", Json.str "foo.txt")] } :=
  ⟨rfl, rfl⟩

/-- Claim C6: scroll sends exactly one outbound notification, with outer
method edit and inner envelope naming method scroll, the view id, and
params the two-element sequence of first and last line. -/
theorem C6_scroll_envelope (view_id : ViewId) (first_line last_line : Nat) :
    Client.scroll view_id first_line last_line
      = EditNotifyResult.invoke (Client.notify "edit"
          (Json.obj
            [("method", Json.str "scroll"),
             ("view_id", ViewId.toJson view_id),
             ("params", Json.arr [Json.num first_line, Json.num last_line])])) :=
  rfl

/-- Claim C7: click sends inner method click with params the sequence
line, column, 0, 1; click_word_select sends inner method gesture with
params the object binding line, col and ty word_select. -/
theorem C7_click_and_word_select_envelopes (view_id : ViewId)
    (line column : Nat) :
    Client.click view_id line column
      = EditNotifyResult.invoke (Client.notify "edit"
          (Json.obj
            [("method", Json.str "click"),
             ("view_id", ViewId.toJson view_id),
             ("params", Json.arr
               [Json.num line, Json.num column, Json.num 0, Json.num 1])])) ∧
    Client.click_word_select view_id line column
      = EditNotifyResult.invoke (Client.notify "edit"
          (Json.obj
            [("method", Json.str "gesture"),
             ("view_id", ViewId.toJson view_id),
             ("params", Json.obj
               [("line", Json.num line), ("col", Json.num column),
                ("ty", Json.str "word_select")])])) :=
  ⟨rfl, rfl⟩

/-- Claim C8, counterexample: for the page-up direction the plain move's
inner method is scroll_page_up, whose first five characters are not
move_ (it is not a move-prefixed name), and the selection variant's
inner method is page_up_and_modify_selection, which is not the plain
move's name with the suffix appended. -/
theorem C8_counterexample_page_up :
    (Client.page_up (ViewId.mk "view-id-1")).innerMethod
      = some "scroll_page_up" ∧
    (Client.page_up_sel (ViewId.mk "view-id-1")).innerMethod
      = some "page_up_and_modify_selection" ∧
    "scroll_page_up".data.take 5 ≠ "move_".data ∧
    "page_up_and_modify_selection" ≠ "scroll_page_up" ++ "_and_modify_selection" := by
  refine ⟨rfl, rfl, by decide, by decide⟩

/-- Claim C8, amended: left, right, up, down, line-start and line-end
follow the pattern of a move-prefixed plain name whose selection variant
appends the suffix; for page-up and page-down, however, the plain moves
are scroll_page_up and scroll_page_down while the selection variants are
page_up_and_modify_selection and page_down_and_modify_selection, so the
suffix attaches to page_up and page_down rather than to the plain
method names. -/
theorem C8_move_catalog_names (view_id : ViewId) :
    (Client.left view_id).innerMethod = some "move_left" ∧
    (Client.left_sel view_id).innerMethod
      = some ("move_left" ++ "_and_modify_selection") ∧
    (Client.right view_id).innerMethod = some "move_right" ∧
    (Client.right_sel view_id).innerMethod
      = some ("move_right" ++ "_and_modify_selection") ∧
    (Client.up view_id).innerMethod = some "move_up" ∧
    (Client.up_sel view_id).innerMethod
      = some ("move_up" ++ "_and_modify_selection") ∧
    (Client.down view_id).innerMethod = some "move_down" ∧
    (Client.down_sel view_id).innerMethod
      = some ("move_down" ++ "_and_modify_selection") ∧
    (Client.line_start view_id).innerMethod
      = some "move_to_left_end_of_line" ∧
    (Client.line_start_sel view_id).innerMethod
      = some ("move_to_left_end_of_line" ++ "_and_modify_selection") ∧
    (Client.line_end view_id).innerMethod
      = some "move_to_right_end_of_line" ∧
    (Client.line_end_sel view_id).innerMethod
      = some ("move_to_right_end_of_line" ++ "_and_modify_selection") ∧
    (Client.page_up view_id).innerMethod = some "scroll_page_up" ∧
    (Client.page_up_sel view_id).innerMethod
      = some ("page_up" ++ "_and_modify_selection") ∧
    (Client.page_down view_id).innerMethod = some "scroll_page_down" ∧
    (Client.page_down_sel view_id).innerMethod
      = some ("page_down" ++ "_and_modify_selection") := by
  exact ⟨rfl, rfl, rfl, rfl, rfl, rfl, rfl, rfl,
    rfl, rfl, rfl, rfl, rfl, rfl, rfl, rfl⟩

/-- Claim C9: new_view chains deserialization of the success payload
into a view identifier: a parseable payload resolves to that identifier,
while a success payload that fails to parse resolves to a serde error,
which is none of NotifyFailed, RequestFailed or ErrorReturned, even
though the request itself succeeded. -/
theorem C9_new_view_parses_reply (file_path : Option String)
    (payload : Json) :
    (∀ vid, viewIdFromJson payload = Except.ok vid →
      (Client.new_view file_path).resolve (TransportResponse.success payload)
        = Except.ok vid) ∧
    (∀ e, viewIdFromJson payload = Except.error e →
      (Client.new_view file_path).resolve (TransportResponse.success payload)
          = Except.error (ClientError.serde e) ∧
        ClientError.serde e ≠ ClientError.requestFailed ∧
        (∀ v, ClientError.serde e ≠ ClientError.errorReturned v) ∧
        ClientError.serde e ≠ ClientError.notifyFailed) := by
  constructor
  · intro vid h
    simp [Client.new_view, Client.request, h]
  · intro e h
    refine ⟨by simp [Client.new_view, Client.request, h], by simp, by simp,
      by simp⟩

/-- Claim C9, witness: with no file path, a string success payload
resolves to that view identifier, and an array success payload resolves
to the serde parse error. -/
theorem C9_new_view_parses_reply_witness :
    (Client.new_view none).resolve
        (TransportResponse.success (Json.str "view-id-1"))
      = Except.ok (ViewId.mk "view-id-1") ∧
    (Client.new_view none).resolve (TransportResponse.success (Json.arr []))
      = Except.error
          (ClientError.serde "invalid type: expected a view id token") :=
  ⟨(C9_new_view_parses_reply none (Json.str "view-id-1")).1
      (ViewId.mk "view-id-1") rfl,
    ((C9_new_view_parses_reply none (Json.arr [])).2
      "invalid type: expected a view id token" rfl).1⟩

/-- Claim C10: click_line_select is extensionally equal to
click_range_select; both send the gesture inner call with ty
range_select, so no distinct line-select gesture type is ever sent. -/
theorem C10_line_select_equals_range_select (view_id : ViewId)
    (line column : Nat) :
    Client.click_line_select view_id line column
      = Client.click_range_select view_id line column ∧
    Client.click_line_select view_id line column
      = EditNotifyResult.invoke (Client.notify "edit"
          (Json.obj
            [("method", Json.str "gesture"),
             ("view_id", ViewId.toJson view_id),
             ("params", gestureParams line column "range_select")])) :=
  ⟨rfl, rfl⟩
